import Mathlib

/-!
Verification development for the Shelly Prometheus exporter core:
the dual-protocol device client with legacy fallback, the legacy-to-canonical
status normalization, the time-of-day electricity rate resolver, and the
per-cycle metrics aggregation (device isolation, cost, heating share).

The Go source is embedded shallowly: float64 values are modelled as rationals,
Go ints as integers, HTTP interactions as explicit result values supplied by
the environment, and JSON decoding as an abstract decodability judgement
(a completed HTTP response carries either a decoded value or a decode failure).
-/

namespace Shelly

/-- Relay mirrors the Relay struct of the client package. -/
structure Relay where
  isOn : Bool := false
  hasTimer : Bool := false
  timerStarted : Int := 0
  timerDuration : Int := 0
  timerRemaining : Int := 0
  overpower : Bool := false
  isValid : Bool := false
  source : String := ""
deriving DecidableEq

/-- Meter mirrors the Meter struct of the client package. -/
structure Meter where
  power : ℚ := 0
  overpower : ℚ := 0
  isValid : Bool := false
  timestamp : Int := 0
  counters : List ℚ := []
  total : Int := 0
deriving DecidableEq

/-- Stable branch of the available-updates object in the sys block. -/
structure StableUpdate where
  version : String := ""
deriving DecidableEq

/-- Available-updates object in the sys block. -/
structure AvailableUpdates where
  stable : StableUpdate := {}
deriving DecidableEq

/-- Sys block of the canonical RPC status response. -/
structure SysInfo where
  mac : String := ""
  restartRequired : Bool := false
  time : String := ""
  unixtime : Int := 0
  lastSyncTs : Int := 0
  uptime : Int := 0
  ramSize : Int := 0
  ramFree : Int := 0
  ramMinFree : Int := 0
  fsSize : Int := 0
  fsFree : Int := 0
  cfgRev : Int := 0
  kvsRev : Int := 0
  scheduleRev : Int := 0
  webhookRev : Int := 0
  btrelayRev : Int := 0
  availableUpdates : AvailableUpdates := {}
  resetReason : Int := 0
deriving DecidableEq

/-- Wifi block of the canonical RPC status response. -/
structure WifiInfo where
  staIP : String := ""
  status : String := ""
  ssid : String := ""
  rssi : Int := 0
deriving DecidableEq

/-- Cloud block: a single connected flag. -/
structure CloudInfo where
  connected : Bool := false
deriving DecidableEq

/-- MQTT block: a single connected flag. -/
structure MQTTInfo where
  connected : Bool := false
deriving DecidableEq

/-- Temperature block of the canonical RPC status response. -/
structure TemperatureInfo where
  id : Int := 0
  tC : ℚ := 0
  tF : ℚ := 0
deriving DecidableEq

/-- Energy-meter block (em:0) of the canonical RPC status response. -/
structure EMInfo where
  id : Int := 0
  aCurrent : ℚ := 0
  aVoltage : ℚ := 0
  aActPower : ℚ := 0
  aAprtPower : ℚ := 0
  aPF : ℚ := 0
  aFreq : ℚ := 0
  bCurrent : ℚ := 0
  bVoltage : ℚ := 0
  bActPower : ℚ := 0
  bAprtPower : ℚ := 0
  bPF : ℚ := 0
  bFreq : ℚ := 0
  cCurrent : ℚ := 0
  cVoltage : ℚ := 0
  cActPower : ℚ := 0
  cAprtPower : ℚ := 0
  cPF : ℚ := 0
  cFreq : ℚ := 0
  nCurrent : Option ℚ := none
  totalCurrent : ℚ := 0
  totalActPower : ℚ := 0
  totalAprtPower : ℚ := 0
deriving DecidableEq

/-- Cumulative energy block (emdata:0) of the canonical RPC status response. -/
structure EMDataInfo where
  id : Int := 0
  aTotalActEnergy : ℚ := 0
  aTotalActRetEnergy : ℚ := 0
  bTotalActEnergy : ℚ := 0
  bTotalActRetEnergy : ℚ := 0
  cTotalActEnergy : ℚ := 0
  cTotalActRetEnergy : ℚ := 0
  totalAct : ℚ := 0
  totalActRet : ℚ := 0
deriving DecidableEq

/-- StatusResponse mirrors the canonical status struct of the client package;
every field defaults to the Go zero value. -/
structure StatusResponse where
  sys : SysInfo := {}
  wifi : WifiInfo := {}
  cloud : CloudInfo := {}
  mqtt : MQTTInfo := {}
  temperature : TemperatureInfo := {}
  em : EMInfo := {}
  emData : EMDataInfo := {}
  mac : String := ""
  serial : String := ""
  hasUpdate : Bool := false
  ramSize : Int := 0
  ramFree : Int := 0
  fsSize : Int := 0
  fsFree : Int := 0
  uptime : Int := 0
  relays : List Relay := []
  meters : List Meter := []
deriving DecidableEq

/-- Station block (wifi_sta) of the legacy status response. -/
structure WifiSta where
  connected : Bool := false
  ssid : String := ""
  ip : String := ""
  rssi : Int := 0
deriving DecidableEq

/-- Cloud block of the legacy status response. -/
structure LegacyCloud where
  enabled : Bool := false
  connected : Bool := false
deriving DecidableEq

/-- Update block of the legacy status response. -/
structure LegacyUpdate where
  status : String := ""
  hasUpdate : Bool := false
  newVersion : String := ""
  oldVersion : String := ""
deriving DecidableEq

/-- LegacyStatusResponse mirrors the legacy API response struct. -/
structure LegacyStatusResponse where
  wifiSta : WifiSta := {}
  cloud : LegacyCloud := {}
  mqtt : MQTTInfo := {}
  time : String := ""
  unixtime : Int := 0
  serial : Int := 0
  hasUpdate : Bool := false
  mac : String := ""
  relays : List Relay := []
  meters : List Meter := []
  temperature : ℚ := 0
  overtemperature : Bool := false
  temperatureStatus : String := ""
  update : LegacyUpdate := {}
  ramSize : Int := 0
  ramFree : Int := 0
  fsSize : Int := 0
  fsFree : Int := 0
  uptime : Int := 0
deriving DecidableEq

/-- Errors the client can return, mirroring the error constructions in the
client package: request creation failure, request execution failure
(connection refused, DNS failure, deadline expiry), unexpected HTTP status
on the legacy path, and JSON decode failure on the legacy path. -/
inductive ClientError where
  | createRequest
  | executeRequest
  | unexpectedStatus (code : Nat)
  | decodeFailed
deriving DecidableEq

/-- Outcome of one HTTP attempt as seen by the client: either the request
could not be executed at all (transport error, including deadline expiry),
or a response arrived with a status code and a body that either decodes
against the expected schema or does not. -/
inductive HttpResult (α : Type) where
  | transportError
  | response (statusCode : Nat) (body : Option α)
deriving DecidableEq

/-- Conversion of a decoded legacy response into the canonical status,
translated statement-for-statement from the tail of getStatusLegacy. -/
def legacyToStatus (l : LegacyStatusResponse) : StatusResponse :=
  let status : StatusResponse :=
    { mac := l.mac, uptime := l.uptime, ramSize := l.ramSize, ramFree := l.ramFree,
      fsSize := l.fsSize, fsFree := l.fsFree }
  let status :=
    { status with
      sys :=
        { status.sys with
          mac := l.mac, uptime := l.uptime, ramSize := l.ramSize,
          ramFree := l.ramFree, fsSize := l.fsSize, fsFree := l.fsFree } }
  let status :=
    { status with
      wifi :=
        { status.wifi with
          staIP := l.wifiSta.ip, ssid := l.wifiSta.ssid, rssi := l.wifiSta.rssi,
          status := if l.wifiSta.connected then "got ip" else status.wifi.status } }
  let status := { status with temperature := { status.temperature with tC := l.temperature } }
  let status := if l.relays.length > 0 then { status with relays := l.relays } else status
  match l.meters with
  | m :: _ =>
      { status with
        em := { status.em with aActPower := m.power, totalActPower := m.power },
        emData := { status.emData with totalAct := (m.total : ℚ) } }
  | [] => status

/-- Legacy attempt (GET endpoint slash status), translated from getStatusLegacy:
a transport failure, a non-200 status, or an undecodable body is fatal;
a decodable 200 body is normalized via legacyToStatus. -/
def getStatusLegacy (legacy : HttpResult LegacyStatusResponse) :
    Except ClientError StatusResponse :=
  match legacy with
  | .transportError => .error .executeRequest
  | .response code body =>
      if code ≠ 200 then .error (.unexpectedStatus code)
      else
        match body with
        | none => .error .decodeFailed
        | some l => .ok (legacyToStatus l)

/-- Dual-protocol status acquisition, translated from GetStatus: the RPC
attempt (GET endpoint slash rpc slash Shelly.GetStatus) is made first; a
transport failure is fatal, a non-200 status or an undecodable body falls
back to the legacy attempt, and a decodable 200 body is returned directly. -/
def GetStatus (rpc : HttpResult StatusResponse)
    (legacy : HttpResult LegacyStatusResponse) : Except ClientError StatusResponse :=
  match rpc with
  | .transportError => .error .executeRequest
  | .response code body =>
      if code ≠ 200 then getStatusLegacy legacy
      else
        match body with
        | none => getStatusLegacy legacy
        | some s => .ok s

/-- Device mirrors the Device struct of the config package. -/
structure Device where
  url : String := ""
  name : String := ""
  category : String := ""
  description : String := ""
deriving DecidableEq

/-- Rate mirrors the Rate struct of the config package: a time-range string
"HH:MM-HH:MM" and a rate value. -/
structure Rate where
  time : String := ""
  rate : ℚ := 0
deriving DecidableEq

/-- CostConfig mirrors the cost-calculation configuration struct. -/
structure CostConfig where
  enabled : Bool := false
  defaultRate : ℚ := 0
  rates : List Rate := []
deriving DecidableEq

/-- TLSConfig mirrors the TLS configuration struct. -/
structure TLSConfig where
  enabled : Bool := false
  caFile : String := ""
  certFile : String := ""
  keyFile : String := ""
  insecureSkipVerify : Bool := false
deriving DecidableEq

/-- Config mirrors the top-level configuration struct; durations are
modelled as integer nanosecond counts. -/
structure Config where
  listenAddress : String := ""
  metricsPath : String := ""
  logLevel : String := ""
  shellyDevices : List String := []
  devices : List Device := []
  scrapeInterval : Int := 0
  scrapeTimeout : Int := 0
  costCalculation : CostConfig := {}
  tls : TLSConfig := {}
deriving DecidableEq

/-- GetAllDeviceURLs: bare-URL entries first, then the URL of every
metadata entry, preserving order within each group. -/
def GetAllDeviceURLs (c : Config) : List String :=
  c.shellyDevices ++ c.devices.map (fun d => d.url)

/-- GetDeviceByURL returns the first configured metadata entry whose URL
equals the given URL, or none. -/
def GetDeviceByURL (c : Config) (url : String) : Option Device :=
  c.devices.find? (fun d => d.url = url)

/-- Splitting a character list at every dash, the behaviour of the Go
strings.Split with separator "-" on the UTF-8 text. -/
def splitDash : List Char → List (List Char)
  | [] => [[]]
  | c :: rest =>
      let r := splitDash rest
      if c = '-' then [] :: r
      else
        match r with
        | [] => [[c]]
        | x :: xs => (c :: x) :: xs

/-- Reading one or two leading decimal digits, the behaviour of the getnum
helper of the Go time package: with fixed true exactly two digits are
required, otherwise a second digit is consumed when present. -/
def getnum2 (fixed : Bool) : List Char → Option (Nat × List Char)
  | [] => none
  | c :: rest =>
      if c.isDigit then
        match rest with
        | c2 :: rest2 =>
            if c2.isDigit then some ((c.toNat - 48) * 10 + (c2.toNat - 48), rest2)
            else if fixed then none
            else some (c.toNat - 48, rest)
        | [] => if fixed then none else some (c.toNat - 48, [])
      else none

/-- Parsing a clock string against the Go layout 15:04: a one- or two-digit
hour, a colon, exactly two minute digits, nothing left over, hour below 24
and minute below 60; the result is the minute of the day. Hours of 24 or
more are rejected, exactly as the Go time parser rejects them. -/
def parseHHMM (s : List Char) : Option Nat :=
  match getnum2 false s with
  | none => none
  | some (h, rest) =>
      match rest with
      | ':' :: rest2 =>
          match getnum2 true rest2 with
          | none => none
          | some (m, rest3) =>
              if rest3 = [] ∧ h < 24 ∧ m < 60 then some (h * 60 + m) else none
      | _ => none

/-- Scan of the configured rate list, translated from the loop of
GetCurrentRate: each time-range string is split at the dash; entries that do
not split into exactly two parts, or whose parts do not parse as clock
strings, are skipped; a normal range (end at or after start) matches when
start ≤ now ≤ end, an overnight range (end before start) matches when
now ≥ start or now ≤ end; the first match wins and an exhausted scan
falls back to the default rate. -/
def scanRates (defaultRate : ℚ) (now : Nat) : List Rate → ℚ
  | [] => defaultRate
  | r :: rest =>
      match splitDash r.time.data with
      | [startStr, endStr] =>
          match parseHHMM startStr, parseHHMM endStr with
          | some s, some e =>
              if e ≥ s then
                if s ≤ now ∧ now ≤ e then r.rate else scanRates defaultRate now rest
              else
                if now ≥ s ∨ now ≤ e then r.rate else scanRates defaultRate now rest
          | _, _ => scanRates defaultRate now rest
      | _ => scanRates defaultRate now rest

/-- GetCurrentRate, translated from the config package: 0 when cost
calculation is disabled, the default rate when no rates are configured,
otherwise the scan of the rate list at the current minute of the day. -/
def GetCurrentRate (c : CostConfig) (now : Nat) : ℚ :=
  if c.enabled = false then 0
  else if c.rates.isEmpty then c.defaultRate
  else scanRates c.defaultRate now c.rates

/-- One record handed to the metrics sink: a metric name, its label values
in declaration order (the device label first), and the sample value. -/
structure Emitted where
  name : String
  labels : List String
  value : ℚ
deriving DecidableEq

/-- Boolean-to-sample conversion used throughout the collector. -/
def boolToValue (b : Bool) : ℚ := if b then 1 else 0

/-- Relay records of one device, translated from the relay loop of
collectDeviceMetrics: for the i-th relay a state record and an overpower
record, labeled relay_i. -/
def relayRecords (device : String) (relays : List Relay) : List Emitted :=
  relays.enum.flatMap fun p =>
    [⟨"shelly_relay_state", [device, "relay_" ++ toString p.1], boolToValue p.2.isOn⟩,
     ⟨"shelly_relay_overpower", [device, "relay_" ++ toString p.1], boolToValue p.2.overpower⟩]

/-- Cost-related records of one device, translated from collectCostMetrics:
a category info record when the endpoint carries metadata; then, only when
cost calculation is enabled, the cost-per-hour and daily-cost records, using
the total active power when positive, else the first meter power when a
meter exists, else zero. -/
def collectCostMetrics (cfg : Config) (device : String) (status : StatusResponse)
    (now : Nat) : List Emitted :=
  let deviceInfo := GetDeviceByURL cfg device
  (match deviceInfo with
   | some d => [⟨"shelly_device_category", [device, d.name, d.category, d.description], 1⟩]
   | none => []) ++
  if cfg.costCalculation.enabled = false then []
  else
    let currentPower : ℚ :=
      if status.em.totalActPower > 0 then status.em.totalActPower
      else match status.meters with
        | m :: _ => m.power
        | [] => 0
    let currentRate := GetCurrentRate cfg.costCalculation now
    let costPerHour := currentPower * currentRate / 1000
    let category := match deviceInfo with
      | some d => d.category
      | none => "unknown"
    [⟨"shelly_cost_per_hour_eur", [device, category], costPerHour⟩,
     ⟨"shelly_daily_cost_eur", [device, category], costPerHour * 24⟩]

/-- Records of one device in the per-device pass, translated from
collectDeviceMetrics: a failed acquisition yields only the down record;
a successful one yields the up record followed by every canonical-field
record and the cost records. -/
def collectDeviceMetrics (cfg : Config) (device : String)
    (result : Except ClientError StatusResponse) (now : Nat) : List Emitted :=
  match result with
  | .error _ => [⟨"shelly_device_up", [device], 0⟩]
  | .ok status =>
      [⟨"shelly_device_up", [device], 1⟩,
       ⟨"shelly_device_info",
        [device, status.sys.mac, status.sys.mac, status.sys.availableUpdates.stable.version], 1⟩,
       ⟨"shelly_wifi_connected", [device, status.wifi.ssid, status.wifi.staIP],
        boolToValue (status.wifi.status = "got ip")⟩,
       ⟨"shelly_wifi_rssi_dbm", [device], (status.wifi.rssi : ℚ)⟩] ++
      relayRecords device status.relays ++
      [⟨"shelly_power_watts", [device, "phase_a"], status.em.aActPower⟩,
       ⟨"shelly_power_watts", [device, "phase_b"], status.em.bActPower⟩,
       ⟨"shelly_power_watts", [device, "phase_c"], status.em.cActPower⟩,
       ⟨"shelly_power_watts", [device, "total"], status.em.totalActPower⟩,
       ⟨"shelly_energy_total_watthours", [device, "total"], status.emData.totalAct⟩,
       ⟨"shelly_temperature_celsius", [device], status.temperature.tC⟩,
       ⟨"shelly_overtemperature", [device], 0⟩,
       ⟨"shelly_uptime_seconds", [device], (status.sys.uptime : ℚ)⟩,
       ⟨"shelly_ram_free_bytes", [device], (status.sys.ramFree : ℚ)⟩,
       ⟨"shelly_ram_size_bytes", [device], (status.sys.ramSize : ℚ)⟩,
       ⟨"shelly_filesystem_free_bytes", [device], (status.sys.fsFree : ℚ)⟩,
       ⟨"shelly_filesystem_size_bytes", [device], (status.sys.fsSize : ℚ)⟩,
       ⟨"shelly_cloud_connected", [device], boolToValue status.cloud.connected⟩,
       ⟨"shelly_mqtt_connected", [device], boolToValue status.mqtt.connected⟩,
       ⟨"shelly_update_available", [device],
        boolToValue (status.sys.availableUpdates.stable.version ≠ "")⟩] ++
      collectCostMetrics cfg device status now

/-- Accumulation step of the heating-percentage sweep, translated from the
first loop of collectHeatingPercentage: a device whose second status fetch
failed is skipped; otherwise its effective power is added to the accumulator
of its category (the configured category, or unknown without metadata) and
to the grand total. -/
def heatingStep (cfg : Config) (env2 : String → Except ClientError StatusResponse)
    (acc : (String → ℚ) × ℚ) (device : String) : (String → ℚ) × ℚ :=
  match env2 device with
  | .error _ => acc
  | .ok status =>
      let currentPower : ℚ :=
        if status.em.totalActPower > 0 then status.em.totalActPower
        else match status.meters with
          | m :: _ => m.power
          | [] => 0
      let category := match GetDeviceByURL cfg device with
        | some d => d.category
        | none => "unknown"
      (fun c => if c = category then acc.1 c + currentPower else acc.1 c,
       acc.2 + currentPower)

/-- Heating-percentage sweep, translated from collectHeatingPercentage:
nothing when cost calculation is disabled; otherwise a second full sweep
over the clients accumulates per-category power and the grand total, and
every endpoint that carries metadata receives one heating-percentage record,
whose value is heating power over total power times 100 when the total is
positive and zero otherwise. -/
def collectHeatingPercentage (cfg : Config) (clients : List String)
    (env2 : String → Except ClientError StatusResponse) : List Emitted :=
  if cfg.costCalculation.enabled = false then []
  else
    let acc := clients.foldl (heatingStep cfg env2) (fun _ => 0, 0)
    let categoryPower := acc.1
    let totalPower := acc.2
    clients.filterMap fun device =>
      match GetDeviceByURL cfg device with
      | none => none
      | some _ =>
          some ⟨"shelly_heating_percentage", [device],
            if totalPower > 0 then categoryPower "heating" / totalPower * 100 else 0⟩

/-- One collection cycle, translated from Collect: every configured client
is visited in order through the per-device pass (the first sweep supplies
each status acquisition outcome), then the heating-percentage records are
computed from a second, independent sweep. -/
def Collect (cfg : Config) (clients : List String)
    (env1 env2 : String → Except ClientError StatusResponse) (now : Nat) : List Emitted :=
  clients.flatMap (fun device => collectDeviceMetrics cfg device (env1 device) now) ++
  collectHeatingPercentage cfg clients env2

/-- Effective power selected by the collector for the cost records and the
heating aggregation: the total active power when positive, otherwise the
first meter power, otherwise zero. -/
def effectivePower (s : StatusResponse) : ℚ :=
  if s.em.totalActPower > 0 then s.em.totalActPower
  else
    match s.meters with
    | m :: _ => m.power
    | [] => 0

/-- Category label used for the cost records: the configured category, or
unknown when the endpoint carries no metadata. -/
def categoryOf (cfg : Config) (device : String) : String :=
  match GetDeviceByURL cfg device with
  | some d => d.category
  | none => "unknown"

/-- Modelled from the spec: the effective power of the cost formula as the
specification words it, namely the maximum of the total active power and
the sole meter power (zero without meters). Stated only to compare the
specified formula with the embedded collector. -/
def specEffectivePower (s : StatusResponse) : ℚ :=
  max s.em.totalActPower
    (match s.meters with
     | m :: _ => m.power
     | [] => 0)

/-- Contribution of one device to the aggregation sweep: its effective
power when the second status fetch succeeded, zero otherwise. -/
def cycleContribution (env2 : String → Except ClientError StatusResponse)
    (device : String) : ℚ :=
  match env2 device with
  | .ok s => effectivePower s
  | .error _ => 0

/-- Grand total power of the aggregation sweep over the client list. -/
def grandTotal (env2 : String → Except ClientError StatusResponse)
    (clients : List String) : ℚ :=
  (clients.map (cycleContribution env2)).sum

/-- Per-category total power of the aggregation sweep over the client
list. -/
def categoryTotal (cfg : Config) (env2 : String → Except ClientError StatusResponse)
    (cat : String) (clients : List String) : ℚ :=
  (clients.map fun device =>
    match env2 device with
    | .ok s => if cat = categoryOf cfg device then effectivePower s else 0
    | .error _ => 0).sum

/-- Concrete overnight schedule: 22:00-06:00 at 0.10, 06:00-22:00 at 0.18,
default 0.15. -/
def c3Schedule : CostConfig :=
  { enabled := true, defaultRate := mkRat 15 100,
    rates := [⟨"22:00-06:00", mkRat 10 100⟩, ⟨"06:00-22:00", mkRat 18 100⟩] }

/-- Concrete normal schedule: 00:00-06:00 at 0.12, 06:00-22:00 at 0.18,
22:00-24:00 at 0.12, default 0.15. -/
def c4Schedule : CostConfig :=
  { enabled := true, defaultRate := mkRat 15 100,
    rates := [⟨"00:00-06:00", mkRat 12 100⟩, ⟨"06:00-22:00", mkRat 18 100⟩,
              ⟨"22:00-24:00", mkRat 12 100⟩] }

/-- Concrete cycle for the device-isolation analysis: endpoint a carries
metadata of category heating and fails, endpoint b has no metadata and
answers with a zero snapshot; cost calculation is enabled. -/
def isolationConfig : Config :=
  { devices := [⟨"a", "A", "heating", ""⟩],
    costCalculation := { enabled := true, defaultRate := mkRat 1 1 } }

/-- Acquisition outcomes of the isolation cycle: endpoint a cannot be
reached, every other endpoint answers with a zero snapshot. -/
def isolationEnv : String → Except ClientError StatusResponse :=
  fun device => if device = "a" then .error .executeRequest else .ok {}

/-- Acquisition outcomes with one failing endpoint named bad. -/
def witnessEnv : String → Except ClientError StatusResponse :=
  fun device => if device = "bad" then .error .executeRequest else .ok {}

/-- Acquisition outcomes where both endpoints answer: endpoint a draws 30
watts, every other endpoint draws 10 watts. -/
def heatingEnv : String → Except ClientError StatusResponse :=
  fun device =>
    if device = "a" then .ok { em := { totalActPower := mkRat 30 1 } }
    else .ok { em := { totalActPower := mkRat 10 1 } }

/-- Snapshot carrying both a positive total active power of 5 watts and a
larger meter power of 10 watts; the RPC schema can decode such a body since
it holds both field groups. -/
def mixedStatus : StatusResponse :=
  { em := { totalActPower := mkRat 5 1 }, meters := [{ power := mkRat 10 1 }] }

/-- Enabled cost configuration with a flat rate of 1 and no metadata. -/
def flatRateConfig : Config :=
  { costCalculation := { enabled := true, defaultRate := mkRat 1 1 } }

/-- Claim C1: a non-200 status or an undecodable body from the RPC attempt
makes getStatus fall back to the legacy attempt; the legacy attempt succeeds
exactly on a decodable 200 body, producing the snapshot given by the
legacy-schema mapping rules (meter power into phase A and total, meter
counter into the cumulative total, relays preserved); a non-200 status or an
undecodable body from the legacy attempt yields an error. -/
theorem C1_fallback_correctness :
    (∀ (code : Nat) (body : Option StatusResponse) (legacy : HttpResult LegacyStatusResponse),
       code ≠ 200 → GetStatus (.response code body) legacy = getStatusLegacy legacy)
  ∧ (∀ legacy : HttpResult LegacyStatusResponse,
       GetStatus (.response 200 none) legacy = getStatusLegacy legacy)
  ∧ (∀ l : LegacyStatusResponse,
       getStatusLegacy (.response 200 (some l)) = .ok (legacyToStatus l))
  ∧ (∀ (l : LegacyStatusResponse) (m : Meter) (rest : List Meter),
       l.meters = m :: rest →
       (legacyToStatus l).em.aActPower = m.power ∧
       (legacyToStatus l).em.totalActPower = m.power ∧
       (legacyToStatus l).emData.totalAct = (m.total : ℚ))
  ∧ (∀ l : LegacyStatusResponse, (legacyToStatus l).relays = l.relays)
  ∧ (∀ (code : Nat) (body : Option LegacyStatusResponse),
       code ≠ 200 → getStatusLegacy (.response code body) = .error (.unexpectedStatus code))
  ∧ getStatusLegacy (.response 200 (none : Option LegacyStatusResponse)) = .error .decodeFailed := by
  refine ⟨?_, ?_, ?_, ?_, ?_, ?_, rfl⟩
  · intro code body legacy h
    simp [GetStatus, h]
  · intro legacy; rfl
  · intro l; rfl
  · intro l m rest h
    refine ⟨?_, ?_, ?_⟩ <;> simp [legacyToStatus, h]
  · intro l
    cases hm : l.meters <;> cases hr : l.relays <;> simp [legacyToStatus, hm, hr]
  · intro code body h
    simp [getStatusLegacy, h]

/-- Witness for C1 at concrete inputs: an RPC 500 falls through to a legacy
200 with decodable body and succeeds; a legacy 404 is fatal; the fallback
snapshot of a one-meter body carries the meter power as phase-A power. -/
theorem C1_fallback_correctness_witness :
    GetStatus (.response 500 none) (.response 200 (some {})) = .ok (legacyToStatus {})
  ∧ getStatusLegacy (.response 404 (some ({} : LegacyStatusResponse)))
      = .error (.unexpectedStatus 404)
  ∧ (legacyToStatus { meters := [{ power := 7 }] }).em.aActPower = (7 : ℚ) := by
  refine ⟨?_, ?_, ?_⟩
  · rw [C1_fallback_correctness.1 500 none _ (by decide)]
    exact C1_fallback_correctness.2.2.1 {}
  · exact C1_fallback_correctness.2.2.2.2.2.1 404 (some {}) (by decide)
  · exact (C1_fallback_correctness.2.2.2.1 { meters := [{ power := 7 }] }
      { power := 7 } [] rfl).1

/-- Claim C2: normalizing a legacy response with at least one meter puts the
first meter power into both the phase-A power and the total active power,
leaves phases B and C at zero, and puts the meter counter into the
cumulative-energy total; with a meter power of 239.21, phase-A power and
total power are both 239.21. -/
theorem C2_legacy_power_mapping :
    (∀ (l : LegacyStatusResponse) (m : Meter) (rest : List Meter),
       l.meters = m :: rest →
       (legacyToStatus l).em.aActPower = m.power ∧
       (legacyToStatus l).em.totalActPower = m.power ∧
       (legacyToStatus l).em.bActPower = 0 ∧
       (legacyToStatus l).em.cActPower = 0 ∧
       (legacyToStatus l).emData.totalAct = (m.total : ℚ))
  ∧ (legacyToStatus { meters := [{ power := (239.21 : ℚ) }] }).em.aActPower = 239.21
  ∧ (legacyToStatus { meters := [{ power := (239.21 : ℚ) }] }).em.totalActPower = 239.21 := by
  refine ⟨?_, by simp [legacyToStatus], by simp [legacyToStatus]⟩
  intro l m rest h
  refine ⟨?_, ?_, ?_, ?_, ?_⟩ <;> simp [legacyToStatus, h] <;> split <;> rfl

/-- Witness for C2 at a concrete one-meter legacy response. -/
theorem C2_legacy_power_mapping_witness :
    (legacyToStatus { meters := [{ power := (239.21 : ℚ), total := 1234 }] }).em.totalActPower
      = (239.21 : ℚ) :=
  (C2_legacy_power_mapping.1 { meters := [{ power := (239.21 : ℚ), total := 1234 }] }
    { power := (239.21 : ℚ), total := 1234 } [] rfl).2.1

/-- Claim C3: an overnight rule (parsed end strictly below parsed start)
matches exactly when now is at or after the start or at or before the end,
both ends inclusive; on the overnight schedule, 02:00 resolves to 0.10 and
12:00 resolves to 0.18. -/
theorem C3_overnight_rule :
    (∀ (r : Rate) (rest : List Rate) (d : ℚ) (now s e : Nat) (a b : List Char),
       splitDash r.time.data = [a, b] → parseHHMM a = some s → parseHHMM b = some e →
       e < s →
       scanRates d now (r :: rest) =
         if s ≤ now ∨ now ≤ e then r.rate else scanRates d now rest)
  ∧ GetCurrentRate c3Schedule 120 = 0.10
  ∧ GetCurrentRate c3Schedule 720 = 0.18 := by
  refine ⟨?_, ?_, ?_⟩
  · intro r rest d now s e a b hsp hpa hpb hlt
    have hns : ¬ (e ≥ s) := by omega
    simp [scanRates, hsp, hpa, hpb, hns]
  · have h : GetCurrentRate c3Schedule 120 = mkRat 10 100 := by decide
    rw [h]; norm_num [Rat.mkRat_eq_div]
  · have h : GetCurrentRate c3Schedule 720 = mkRat 18 100 := by decide
    rw [h]; norm_num [Rat.mkRat_eq_div]

/-- Witness for C3: the overnight rule 22:00-06:00 applied at 02:00. -/
theorem C3_overnight_rule_witness :
    scanRates (mkRat 15 100) 120 [⟨"22:00-06:00", mkRat 10 100⟩] =
      (if 1320 ≤ 120 ∨ 120 ≤ 360 then mkRat 10 100
       else scanRates (mkRat 15 100) 120 []) :=
  C3_overnight_rule.1 ⟨"22:00-06:00", mkRat 10 100⟩ [] (mkRat 15 100) 120 1320 360
    "22:00".data "06:00".data (by decide) (by decide) (by decide) (by decide)

/-- Claim C4 counterexample: on the normal schedule the claim expects 23:30
to resolve to 0.12, but the end time 24:00 is rejected by the clock parser
(hour 24 is out of range), the rule 22:00-24:00 is skipped, and the
resolver returns the default 0.15 instead. -/
theorem C4_counterexample :
    GetCurrentRate c4Schedule 1410 = 0.15
  ∧ (0.15 : ℚ) ≠ 0.12
  ∧ parseHHMM "24:00".data = none := by
  refine ⟨?_, by norm_num, by decide⟩
  have h : GetCurrentRate c4Schedule 1410 = mkRat 15 100 := by decide
  rw [h]; norm_num [Rat.mkRat_eq_div]

/-- Claim C4 as amended: a normal rule (parsed end at or above parsed start)
matches exactly when start ≤ now ≤ end, both ends inclusive; on the normal
schedule, 10:00 resolves to 0.18, while 23:30 resolves to the default 0.15
because the end time 24:00 of the third rule does not parse and the rule is
skipped. -/
theorem C4_normal_rule :
    (∀ (r : Rate) (rest : List Rate) (d : ℚ) (now s e : Nat) (a b : List Char),
       splitDash r.time.data = [a, b] → parseHHMM a = some s → parseHHMM b = some e →
       s ≤ e →
       scanRates d now (r :: rest) =
         if s ≤ now ∧ now ≤ e then r.rate else scanRates d now rest)
  ∧ GetCurrentRate c4Schedule 600 = 0.18
  ∧ GetCurrentRate c4Schedule 1410 = 0.15 := by
  refine ⟨?_, ?_, ?_⟩
  · intro r rest d now s e a b hsp hpa hpb hle
    have hge : e ≥ s := hle
    simp [scanRates, hsp, hpa, hpb, hge]
  · have h : GetCurrentRate c4Schedule 600 = mkRat 18 100 := by decide
    rw [h]; norm_num [Rat.mkRat_eq_div]
  · have h : GetCurrentRate c4Schedule 1410 = mkRat 15 100 := by decide
    rw [h]; norm_num [Rat.mkRat_eq_div]

/-- Witness for the amended C4: the normal rule 06:00-22:00 applied at
10:00. -/
theorem C4_normal_rule_witness :
    scanRates (mkRat 15 100) 600 [⟨"06:00-22:00", mkRat 18 100⟩] =
      (if 360 ≤ 600 ∧ 600 ≤ 1320 then mkRat 18 100
       else scanRates (mkRat 15 100) 600 []) :=
  C4_normal_rule.1 ⟨"06:00-22:00", mkRat 18 100⟩ [] (mkRat 15 100) 600 360 1320
    "06:00".data "22:00".data (by decide) (by decide) (by decide) (by decide)

/-- Claim C5: a rule whose time string does not split into exactly two parts
at the dash, or whose start or end part does not parse as a clock string, is
skipped and the scan continues; an exhausted scan returns the default rate;
in particular a schedule holding only the rule invalid-format returns the
default rate at every time of day. -/
theorem C5_malformed_skipped :
    (∀ (r : Rate) (rest : List Rate) (d : ℚ) (now : Nat),
       (splitDash r.time.data).length ≠ 2 →
       scanRates d now (r :: rest) = scanRates d now rest)
  ∧ (∀ (r : Rate) (rest : List Rate) (d : ℚ) (now : Nat) (a b : List Char),
       splitDash r.time.data = [a, b] →
       parseHHMM a = none ∨ parseHHMM b = none →
       scanRates d now (r :: rest) = scanRates d now rest)
  ∧ (∀ (d : ℚ) (now : Nat), scanRates d now [] = d)
  ∧ (∀ (d : ℚ) (now : Nat),
       GetCurrentRate { enabled := true, defaultRate := d,
                        rates := [⟨"invalid-format", 0.20⟩] } now = d) := by
  refine ⟨?_, ?_, fun d now => rfl, ?_⟩
  · intro r rest d now hlen
    rcases hsp : splitDash r.time.data with _ | ⟨a, _ | ⟨b, _ | ⟨c, tail⟩⟩⟩
    · simp [scanRates, hsp]
    · simp [scanRates, hsp]
    · exact absurd (by rw [hsp]; rfl) hlen
    · simp [scanRates, hsp]
  · intro r rest d now a b hsp hnone
    rcases hnone with h | h
    · simp [scanRates, hsp, h]
    · cases hpa : parseHHMM a <;> simp [scanRates, hsp, hpa, h]
  · intro d now
    have h1 : splitDash ("invalid-format" : String).data = ["invalid".data, "format".data] := by
      decide
    have h2 : parseHHMM "invalid".data = none := by decide
    simp [GetCurrentRate, scanRates, h1, h2]

/-- Witness for C5: a rule without a dash is skipped, and the
invalid-format schedule yields its default rate at 09:00. -/
theorem C5_malformed_skipped_witness :
    scanRates 1 0 [⟨"nodash", mkRat 1 5⟩] = scanRates 1 0 []
  ∧ GetCurrentRate { enabled := true, defaultRate := mkRat 15 100,
                     rates := [⟨"invalid-format", 0.20⟩] } 540 = mkRat 15 100 := by
  constructor
  · exact C5_malformed_skipped.1 ⟨"nodash", mkRat 1 5⟩ [] 1 0 (by decide)
  · exact C5_malformed_skipped.2.2.2 (mkRat 15 100) 540

/-- Every record of the cost pass carries one of the three cost metric
names. -/
lemma collectCostMetrics_names (cfg : Config) (device : String) (status : StatusResponse)
    (now : Nat) :
    ∀ r ∈ collectCostMetrics cfg device status now,
      r.name = "shelly_device_category" ∨ r.name = "shelly_cost_per_hour_eur" ∨
      r.name = "shelly_daily_cost_eur" := by
  intro r hr
  simp only [collectCostMetrics] at hr
  rcases List.mem_append.mp hr with h1 | h2
  · rcases hd : GetDeviceByURL cfg device with _ | dev
    · rw [hd] at h1; simp at h1
    · rw [hd] at h1; simp at h1; simp [h1]
  · by_cases he : cfg.costCalculation.enabled = false
    · rw [if_pos he] at h2; simp at h2
    · rw [if_neg he] at h2
      simp at h2
      rcases h2 with h | h <;> simp [h]

/-- Every relay record carries one of the two relay metric names. -/
lemma relayRecords_names (device : String) (relays : List Relay) :
    ∀ r ∈ relayRecords device relays,
      r.name = "shelly_relay_state" ∨ r.name = "shelly_relay_overpower" := by
  intro r hr
  simp [relayRecords, List.mem_flatMap] at hr
  obtain ⟨a, b, hab, hrr⟩ := hr
  rcases hrr with h | h <;> subst h <;> simp

/-- The legacy normalization never touches the cloud or MQTT blocks. -/
lemma legacyToStatus_cloud_mqtt (l : LegacyStatusResponse) :
    (legacyToStatus l).cloud.connected = false ∧ (legacyToStatus l).mqtt.connected = false := by
  cases hm : l.meters <;> cases hr : l.relays <;> simp [legacyToStatus, hm, hr]

/-- With cost calculation disabled the cycle is exactly the per-device
pass. -/
lemma Collect_disabled (cfg : Config) (clients : List String)
    (env1 env2 : String → Except ClientError StatusResponse) (now : Nat)
    (h : cfg.costCalculation.enabled = false) :
    Collect cfg clients env1 env2 now
      = clients.flatMap fun device => collectDeviceMetrics cfg device (env1 device) now := by
  simp [Collect, collectHeatingPercentage, h]

/-- The accumulation loop of the heating sweep computes, for every starting
accumulator, the per-category totals and the grand total of the client
list. -/
lemma heatingStep_foldl (cfg : Config) (env2 : String → Except ClientError StatusResponse) :
    ∀ (clients : List String) (f0 : String → ℚ) (t0 : ℚ),
      clients.foldl (heatingStep cfg env2) (f0, t0)
        = (fun cat => f0 cat + categoryTotal cfg env2 cat clients,
           t0 + grandTotal env2 clients) := by
  intro clients
  induction clients with
  | nil =>
      intro f0 t0
      simp [categoryTotal, grandTotal]
  | cons d rest ih =>
      intro f0 t0
      rw [List.foldl_cons]
      cases henv : env2 d with
      | error e =>
          have hstep : heatingStep cfg env2 (f0, t0) d = (f0, t0) := by
            simp [heatingStep, henv]
          rw [hstep, ih f0 t0]
          simp only [Prod.mk.injEq]
          constructor
          · funext cat
            simp [categoryTotal, henv]
          · simp [grandTotal, cycleContribution, henv]
      | ok s =>
          have hstep : heatingStep cfg env2 (f0, t0) d
              = (fun c => if c = categoryOf cfg d then f0 c + effectivePower s else f0 c,
                 t0 + effectivePower s) := by
            simp [heatingStep, henv, effectivePower, categoryOf]
          rw [hstep, ih]
          simp only [Prod.mk.injEq]
          constructor
          · funext cat
            by_cases hcat : cat = categoryOf cfg d
            · simp [categoryTotal, henv, hcat, effectivePower]
              ring
            · simp [categoryTotal, henv, hcat, effectivePower]
          · simp [grandTotal, cycleContribution, henv, effectivePower]
            ring

/-- Claim C6 counterexample: with cost calculation enabled and a failing
endpoint that carries metadata, the cycle emits two records labeled with
that endpoint (the down record and a heating-share record), not exactly
one. -/
theorem C6_counterexample :
    (Collect isolationConfig ["a", "b"] isolationEnv isolationEnv 0).filter
      (fun r => r.labels.head? = some "a")
      = [⟨"shelly_device_up", ["a"], 0⟩, ⟨"shelly_heating_percentage", ["a"], 0⟩] := by
  simp [Collect, collectDeviceMetrics, collectCostMetrics, collectHeatingPercentage,
    heatingStep, GetDeviceByURL, isolationConfig, isolationEnv, relayRecords, boolToValue,
    GetCurrentRate]

/-- Claim C6 as amended: a failing device contributes exactly the down
record to the per-device pass; with cost calculation disabled the cycle is
the per-device pass alone, so the failing device gets exactly one record,
the cycle total-function is defined on every input (no exception), and the
records of the endpoints before and after it are unchanged; a succeeding
device still receives its full record set (up record and canonical-field
records); with cost calculation enabled and metadata on the endpoint, the
aggregation pass additionally emits one heating-share record for it. -/
theorem C6_device_down_isolation :
    (∀ (cfg : Config) (device : String) (e : ClientError) (now : Nat),
       collectDeviceMetrics cfg device (.error e) now = [⟨"shelly_device_up", [device], 0⟩])
  ∧ (∀ (cfg : Config) (clients : List String)
       (env1 env2 : String → Except ClientError StatusResponse) (now : Nat),
       cfg.costCalculation.enabled = false →
       Collect cfg clients env1 env2 now
         = clients.flatMap fun device => collectDeviceMetrics cfg device (env1 device) now)
  ∧ (∀ (cfg : Config) (pre post : List String) (dBad : String)
       (env1 env2 : String → Except ClientError StatusResponse) (now : Nat) (e : ClientError),
       cfg.costCalculation.enabled = false →
       env1 dBad = .error e →
       Collect cfg (pre ++ dBad :: post) env1 env2 now
         = Collect cfg pre env1 env2 now ++ ⟨"shelly_device_up", [dBad], 0⟩ ::
           Collect cfg post env1 env2 now)
  ∧ (∀ (cfg : Config) (device : String) (s : StatusResponse) (now : Nat),
       Emitted.mk "shelly_device_up" [device] 1 ∈ collectDeviceMetrics cfg device (.ok s) now
       ∧ Emitted.mk "shelly_power_watts" [device, "total"] s.em.totalActPower
           ∈ collectDeviceMetrics cfg device (.ok s) now
       ∧ Emitted.mk "shelly_temperature_celsius" [device] s.temperature.tC
           ∈ collectDeviceMetrics cfg device (.ok s) now
       ∧ Emitted.mk "shelly_energy_total_watthours" [device, "total"] s.emData.totalAct
           ∈ collectDeviceMetrics cfg device (.ok s) now)
  ∧ (∀ (cfg : Config) (clients : List String)
       (env2 : String → Except ClientError StatusResponse) (dBad : String) (dev : Device),
       cfg.costCalculation.enabled = true → dBad ∈ clients →
       GetDeviceByURL cfg dBad = some dev →
       ∃ q, Emitted.mk "shelly_heating_percentage" [dBad] q
              ∈ collectHeatingPercentage cfg clients env2) := by
  refine ⟨fun cfg device e now => rfl,
          fun cfg clients env1 env2 now h => Collect_disabled cfg clients env1 env2 now h,
          ?_, ?_, ?_⟩
  · intro cfg pre post dBad env1 env2 now e hdis herr
    rw [Collect_disabled _ _ _ _ _ hdis, Collect_disabled _ _ _ _ _ hdis,
        Collect_disabled _ _ _ _ _ hdis]
    simp [herr, collectDeviceMetrics]
  · intro cfg device s now
    refine ⟨?_, ?_, ?_, ?_⟩ <;> simp [collectDeviceMetrics]
  · intro cfg clients env2 dBad dev hen hmem hdev
    exact ⟨_, by
      simp only [collectHeatingPercentage, hen, Bool.true_eq_false, if_false,
        List.mem_filterMap]
      exact ⟨dBad, hmem, by rw [hdev]⟩⟩

/-- Witness for the amended C6: a concrete cycle with a failing endpoint
between two succeeding ones, cost calculation disabled. -/
theorem C6_device_down_isolation_witness :
    Collect ({} : Config) (["x"] ++ "bad" :: ["y"]) witnessEnv witnessEnv 0
      = Collect {} ["x"] witnessEnv witnessEnv 0 ++ ⟨"shelly_device_up", ["bad"], 0⟩ ::
        Collect {} ["y"] witnessEnv witnessEnv 0 :=
  C6_device_down_isolation.2.2.1 {} ["x"] ["y"] "bad" witnessEnv witnessEnv 0
    .executeRequest rfl rfl

/-- Claim C7 counterexample: on a snapshot carrying total active power 5
and meter power 10 under a flat rate of 1, the emitted cost-per-hour is
5/1000, while the claimed formula max(total, meter) * rate / 1000 gives
10/1000; the two differ. -/
theorem C7_counterexample :
    (collectCostMetrics flatRateConfig "a" mixedStatus 0).map Emitted.value = [1/200, 3/25]
  ∧ specEffectivePower mixedStatus
      * GetCurrentRate flatRateConfig.costCalculation 0 / 1000 = 1/100
  ∧ (1/200 : ℚ) ≠ 1/100 := by
  refine ⟨?_, ?_, by norm_num⟩
  · simp [collectCostMetrics, GetDeviceByURL, GetCurrentRate, flatRateConfig, mixedStatus,
      Rat.mkRat_eq_div]
    norm_num
  · simp [specEffectivePower, GetCurrentRate, flatRateConfig, mixedStatus, Rat.mkRat_eq_div]
    norm_num

/-- Claim C7 as amended: with cost calculation enabled, the device emits a
cost-per-hour equal to effectivePower(snapshot) * currentRate / 1000 and a
daily cost of 24 times that, labeled with the configured category or
unknown without metadata, where effectivePower selects the total active
power when positive, else the sole meter power, else zero (this coincides
with the claimed maximum whenever at most one of the two quantities is
positive). -/
theorem C7_cost_formula :
    ∀ (cfg : Config) (device : String) (s : StatusResponse) (now : Nat),
      cfg.costCalculation.enabled = true →
      collectCostMetrics cfg device s now
        = ((match GetDeviceByURL cfg device with
            | some d => [⟨"shelly_device_category",
                          [device, d.name, d.category, d.description], 1⟩]
            | none => []) : List Emitted) ++
          [⟨"shelly_cost_per_hour_eur", [device, categoryOf cfg device],
            effectivePower s * GetCurrentRate cfg.costCalculation now / 1000⟩,
           ⟨"shelly_daily_cost_eur", [device, categoryOf cfg device],
            effectivePower s * GetCurrentRate cfg.costCalculation now / 1000 * 24⟩] := by
  intro cfg device s now hen
  cases hd : GetDeviceByURL cfg device <;>
    simp [collectCostMetrics, effectivePower, categoryOf, hen, hd]

/-- Witness for the amended C7 on the mixed snapshot under the flat-rate
configuration. -/
theorem C7_cost_formula_witness :
    collectCostMetrics flatRateConfig "a" mixedStatus 0
      = [⟨"shelly_cost_per_hour_eur", ["a", "unknown"],
          effectivePower mixedStatus * GetCurrentRate flatRateConfig.costCalculation 0 / 1000⟩,
         ⟨"shelly_daily_cost_eur", ["a", "unknown"],
          effectivePower mixedStatus
            * GetCurrentRate flatRateConfig.costCalculation 0 / 1000 * 24⟩] := by
  have h := C7_cost_formula flatRateConfig "a" mixedStatus 0 rfl
  simpa [categoryOf, GetDeviceByURL, flatRateConfig] using h

/-- Claim C8: with cost calculation enabled, the heating sweep sums every
successfully-answered device into its category accumulator and the grand
total; every endpoint with metadata receives a heating-share record equal
to 100 * heatingTotal / grandTotal when the grand total is positive and 0
when it is not (in particular when it is 0); endpoints without metadata
receive no heating-share record. -/
theorem C8_heating_share :
    ∀ (cfg : Config) (clients : List String)
      (env2 : String → Except ClientError StatusResponse),
      cfg.costCalculation.enabled = true →
      (∀ (device : String) (dev : Device), device ∈ clients →
         GetDeviceByURL cfg device = some dev →
         Emitted.mk "shelly_heating_percentage" [device]
           (if 0 < grandTotal env2 clients
            then 100 * categoryTotal cfg env2 "heating" clients / grandTotal env2 clients
            else 0)
           ∈ collectHeatingPercentage cfg clients env2)
    ∧ (∀ device : String, device ∈ clients → GetDeviceByURL cfg device = none →
         ∀ r ∈ collectHeatingPercentage cfg clients env2, r.labels ≠ [device])
    ∧ (grandTotal env2 clients = 0 →
         ∀ r ∈ collectHeatingPercentage cfg clients env2, r.value = 0) := by
  intro cfg clients env2 hen
  have hfold := heatingStep_foldl cfg env2 clients (fun _ => 0) 0
  refine ⟨?_, ?_, ?_⟩
  · intro device dev hmem hdev
    simp only [collectHeatingPercentage, hen, Bool.true_eq_false, if_false, hfold,
      List.mem_filterMap]
    refine ⟨device, hmem, ?_⟩
    rw [hdev]
    simp only [Option.some.injEq, Emitted.mk.injEq, true_and]
    simp only [zero_add]
    split_ifs with h
    · ring
    · rfl
  · intro device hmem hdev r hr
    simp only [collectHeatingPercentage, hen, Bool.true_eq_false, if_false,
      List.mem_filterMap] at hr
    obtain ⟨d2, hd2mem, hd2⟩ := hr
    rcases hd : GetDeviceByURL cfg d2 with _ | dev2 <;> rw [hd] at hd2
    · simp at hd2
    · simp only [Option.some.injEq] at hd2
      rw [← hd2]
      simp only [ne_eq, List.cons.injEq, and_true]
      intro hdd
      rw [hdd] at hd
      exact Option.noConfusion (hd.symm.trans hdev)
  · intro hzero r hr
    simp only [collectHeatingPercentage, hen, Bool.true_eq_false, if_false, hfold,
      List.mem_filterMap] at hr
    obtain ⟨d2, hd2mem, hd2⟩ := hr
    rcases hd : GetDeviceByURL cfg d2 with _ | dev2 <;> rw [hd] at hd2
    · simp at hd2
    · simp only [Option.some.injEq] at hd2
      rw [← hd2]
      simp [hzero]

/-- Witness for C8: the heating endpoint a of a two-endpoint sweep where a
draws 30 watts and b draws 10 watts receives its heating-share record. -/
theorem C8_heating_share_witness :
    Emitted.mk "shelly_heating_percentage" ["a"]
      (if 0 < grandTotal heatingEnv ["a", "b"]
       then 100 * categoryTotal isolationConfig heatingEnv "heating" ["a", "b"]
            / grandTotal heatingEnv ["a", "b"]
       else 0)
      ∈ collectHeatingPercentage isolationConfig ["a", "b"] heatingEnv :=
  (C8_heating_share isolationConfig ["a", "b"] heatingEnv rfl).1 "a"
    ⟨"a", "A", "heating", ""⟩ (by decide) (by decide)

/-- Claim C9: a transport-level failure of the RPC attempt (the request
cannot be executed: connection refused, DNS failure, deadline expiry) is
returned as an error for every possible legacy outcome, so the legacy
endpoint is never consulted; symmetrically, a decodable 200 RPC body is
returned directly for every possible legacy outcome. -/
theorem C9_transport_error_fatal :
    (∀ legacy : HttpResult LegacyStatusResponse,
       GetStatus .transportError legacy = .error .executeRequest)
  ∧ (∀ (s : StatusResponse) (legacy : HttpResult LegacyStatusResponse),
       GetStatus (.response 200 (some s)) legacy = .ok s) :=
  ⟨fun _ => rfl, fun _ _ => rfl⟩

/-- Claim C10: the legacy normalization leaves the cloud-connected and
MQTT-connected flags false for every legacy payload, and the per-device
pass of a legacy-served device emits exactly one cloud record and one MQTT
record, both with value 0. -/
theorem C10_legacy_cloud_mqtt_zero :
    ∀ (l : LegacyStatusResponse) (cfg : Config) (device : String) (now : Nat),
      (legacyToStatus l).cloud.connected = false
    ∧ (legacyToStatus l).mqtt.connected = false
    ∧ (collectDeviceMetrics cfg device (.ok (legacyToStatus l)) now).filter
        (fun r => r.name = "shelly_cloud_connected")
        = [⟨"shelly_cloud_connected", [device], 0⟩]
    ∧ (collectDeviceMetrics cfg device (.ok (legacyToStatus l)) now).filter
        (fun r => r.name = "shelly_mqtt_connected")
        = [⟨"shelly_mqtt_connected", [device], 0⟩] := by
  intro l cfg device now
  obtain ⟨hc, hm⟩ := legacyToStatus_cloud_mqtt l
  refine ⟨hc, hm, ?_, ?_⟩
  · have hrel : (relayRecords device (legacyToStatus l).relays).filter
        (fun r => r.name = "shelly_cloud_connected") = [] := by
      rw [List.filter_eq_nil_iff]
      intro r hr
      rcases relayRecords_names device _ r hr with h | h <;> simp [h]
    have hcost : (collectCostMetrics cfg device (legacyToStatus l) now).filter
        (fun r => r.name = "shelly_cloud_connected") = [] := by
      rw [List.filter_eq_nil_iff]
      intro r hr
      rcases collectCostMetrics_names cfg device _ now r hr with h | h | h <;> simp [h]
    simp only [collectDeviceMetrics, List.filter_append, hrel, hcost]
    simp [hc, boolToValue]
  · have hrel : (relayRecords device (legacyToStatus l).relays).filter
        (fun r => r.name = "shelly_mqtt_connected") = [] := by
      rw [List.filter_eq_nil_iff]
      intro r hr
      rcases relayRecords_names device _ r hr with h | h <;> simp [h]
    have hcost : (collectCostMetrics cfg device (legacyToStatus l) now).filter
        (fun r => r.name = "shelly_mqtt_connected") = [] := by
      rw [List.filter_eq_nil_iff]
      intro r hr
      rcases collectCostMetrics_names cfg device _ now r hr with h | h | h <;> simp [h]
    simp only [collectDeviceMetrics, List.filter_append, hrel, hcost]
    simp [hm, boolToValue]

end Shelly
